import Mathlib

/-!
# Verification of the Website Summarizer pipeline (`src/app.py`)

A shallow embedding of the program in `src/app.py`. Effects are made
explicit through an environment `Env`:

* `fetch` gives the outcome of constructing `Website(url)` (the HTTP GET,
  `raise_for_status`, BeautifulSoup parsing and text extraction of
  `Website.__init__`, lines 35–57): either a parsed page (title, body
  text), a `requests.exceptions.RequestException` (caught at line 54), or
  some other exception raised while processing (caught at line 56; the
  title parsed before the failure point is recorded, the text is always
  still `""` because the `self.text` assignment is the last statement of
  the `try` block).
* `llm` gives the outcome of `chat.send_message(user_prompt)` (lines
  99–102): the model's text, or the message of an exception (caught at
  line 104).  Note that the code never passes `system_prompt` to the
  model, so `llm` takes the user prompt only.
* `now` is `datetime.now().isoformat()` (line 109).
* `writeOk` / `deleteOk` say whether the file write in `save_summary`
  (lines 121–125) and the file removal in `clear_history` (lines
  386–390) succeed; both failures are swallowed by the code.

The on-disk JSON file is modelled at the level of a JSON syntax tree
(`JValue`): `json.dumps`/`json.load` rendering and parsing of well-formed
JSON text is the json library's contract and is out of the embedded
program's scope, so the file holds the tree that a successful
`json.dump` wrote, and `decodeHistory` models `json.load` plus the
record shape.
-/

/-- Outcome of constructing `Website(url)` (src/app.py lines 35–57). -/
inductive FetchOutcome where
  | success (title text : String)
  | requestError (msg : String)
  | processError (titleAtFailure msg : String)
deriving Repr, DecidableEq

/-- Results of a single-turn LLM call: the response text or the message of
a raised exception. -/
structure Env where
  apiKey : Bool
  fetch : String → FetchOutcome
  llm : String → Except String String
  now : String
  writeOk : Bool
  deleteOk : Bool

/-- The fields set by `Website.__init__` (src/app.py lines 35–57). -/
structure Website where
  url : String
  title : String
  text : String
  error : Option String
deriving Repr, DecidableEq

/-- `Website(url)` (src/app.py lines 35–57): defaults
`title = "Unknown Title"`, `text = ""`, `error = None`, then the `try`
block updates them or one of the two `except` arms sets `error`. -/
def Website.ofUrl (env : Env) (url : String) : Website :=
  match env.fetch url with
  | .success t x => ⟨url, t, x, none⟩
  | .requestError m => ⟨url, "Unknown Title", "", some ("Failed to fetch website: " ++ m)⟩
  | .processError t m => ⟨url, t, "", some ("Error processing website: " ++ m)⟩

/-- Python `s.startswith(pre)`: `pre` is a character-prefix of `s`. -/
def pystartswith (s pre : String) : Bool :=
  pre.data.isPrefixOf s.data

/-- Python `s.strip()`: remove leading and trailing whitespace. -/
def pystrip (s : String) : String :=
  String.mk (((s.data.dropWhile Char.isWhitespace).reverse.dropWhile Char.isWhitespace).reverse)

/-- Split a character list at every newline; like Python's
`s.split('\n')`, adjacent separators produce empty chunks. -/
def splitNlChars : List Char → List (List Char)
  | [] => [[]]
  | c :: rest =>
    if c = '\n' then [] :: splitNlChars rest
    else
      match splitNlChars rest with
      | [] => [[c]]
      | x :: xs => (c :: x) :: xs

/-- Python `s.split('\n')`. -/
def pysplitNl (s : String) : List String :=
  (splitNlChars s.data).map String.mk

/-- src/app.py line 61. -/
def base_prompt : String :=
  "You are an assistant that analyzes the contents of a website and provides a summary, ignoring text that might be navigation related."

/-- `create_system_prompt` (src/app.py lines 59–70). -/
def create_system_prompt (summary_type : String) : String :=
  if summary_type = "short" then
    base_prompt ++ " Respond with a short summary in markdown."
  else if summary_type = "detailed" then
    base_prompt ++ " Respond with a detailed summary in markdown, including key points and main topics."
  else if summary_type = "bullet_points" then
    base_prompt ++ " Respond with a bullet-point summary in markdown, highlighting the main ideas."
  else
    base_prompt ++ " Respond in markdown."

/-- The default value of the `summary_type` parameter (src/app.py lines
59, 72, 141). -/
def default_summary_type : String := "short"

/-- The fixed part of the user prompt, before the truncated page text
(src/app.py lines 93–95). -/
def user_prompt_header (title : String) : String :=
  "You are looking at a website titled '" ++ title ++ "'\n\n" ++
  "The contents of this website are as follows; please provide a summary of this website in markdown. " ++
  "If it includes news or announcements, summarize these too.\n\n"

/-- The user prompt built by `summarize_website` (src/app.py lines
93–96); `website.text[:8000]` is `String.take text 8000`. -/
def create_user_prompt (title text : String) : String :=
  user_prompt_header title ++ text.take 8000

/-- `summarize_website` (src/app.py lines 72–105).  `model` is `None`
exactly when `api_key` is absent (lines 17–21), so the two guards at
lines 74 and 77 collapse into the `apiKey` test.  The `system_prompt`
built at line 91 is never sent to the model (lines 99–100 start a fresh
chat and send only `user_prompt`). -/
def summarize_website (env : Env) (url : String) (summary_type : String) : String :=
  if env.apiKey = false then
    "❌ **Error**: No Gemini API key found. Please check your .env file."
  else
    let website := Website.ofUrl env url
    match website.error with
    | some e => "❌ **Error**: " ++ e
    | none =>
      if pystrip website.text = "" then
        "❌ **Error**: No content could be extracted from the website."
      else
        let _system_prompt := create_system_prompt summary_type
        match env.llm (create_user_prompt website.title website.text) with
        | .ok t => t
        | .error e => "❌ **Error**: Failed to generate summary: " ++ e

/-- A history record (src/app.py lines 110–116). -/
structure SummaryRecord where
  url : String
  summary : String
  summary_type : String
  timestamp : String
  title : String
deriving Repr, DecidableEq

/-- A JSON value, as far as this program's file format needs. -/
inductive JValue where
  | jstr (s : String)
  | jarr (xs : List JValue)
  | jobj (fields : List (String × JValue))

/-- The JSON object `json.dump` writes for one record, fields in the
dict-literal order of src/app.py lines 110–116. -/
def encodeRecord (r : SummaryRecord) : JValue :=
  .jobj [("url", .jstr r.url), ("summary", .jstr r.summary),
         ("summary_type", .jstr r.summary_type), ("timestamp", .jstr r.timestamp),
         ("title", .jstr r.title)]

/-- The JSON array `json.dump(summaries_history, ...)` writes. -/
def encodeHistory (h : List SummaryRecord) : JValue :=
  .jarr (h.map encodeRecord)

/-- Field lookup in a JSON object. -/
def jlookup (k : String) : List (String × JValue) → Option JValue
  | [] => none
  | (k', v) :: rest => if k' = k then some v else jlookup k rest

/-- Read a string field. -/
def jstrField (k : String) (fs : List (String × JValue)) : Option String :=
  match jlookup k fs with
  | some (.jstr s) => some s
  | _ => none

/-- Parse one record back from JSON. -/
def decodeRecord : JValue → Option SummaryRecord
  | .jobj fs =>
    match jstrField "url" fs, jstrField "summary" fs, jstrField "summary_type" fs,
          jstrField "timestamp" fs, jstrField "title" fs with
    | some u, some s, some ty, some ts, some t => some ⟨u, s, ty, ts, t⟩
    | _, _, _, _, _ => none
  | _ => none

/-- Parse the whole file back: `json.load` plus the record-list shape. -/
def decodeHistory : JValue → Option (List SummaryRecord)
  | .jarr xs => xs.mapM decodeRecord
  | _ => none

/-- Render a JSON string literal (the json library's serialization of a
string value, with the escapes `json.dumps(..., ensure_ascii=False)`
produces for the characters this matters for). -/
def jescape (s : String) : String :=
  s.data.foldl
    (fun acc c =>
      if c = '"' then acc ++ "\\\""
      else if c = '\\' then acc ++ "\\\\"
      else if c = '\n' then acc ++ "\\n"
      else if c = '\t' then acc ++ "\\t"
      else if c = '\r' then acc ++ "\\r"
      else acc.push c) ""

/-- Render a JSON tree to text (the json library's side of
`json.dumps`; whitespace/indentation is not modelled). -/
def jsonRender : JValue → String
  | .jstr s => "\"" ++ jescape s ++ "\""
  | .jarr xs => "[" ++ String.intercalate ", " (xs.attach.map (fun x => jsonRender x.1)) ++ "]"
  | .jobj fs => "\x7b" ++ String.intercalate ", "
      (fs.attach.map (fun f => "\"" ++ jescape f.1.1 ++ "\": " ++ jsonRender f.1.2)) ++ "\x7d"
termination_by v => sizeOf v
decreasing_by
  · have := List.sizeOf_lt_of_mem x.2
    simp only [JValue.jarr.sizeOf_spec]
    omega
  · have h1 := List.sizeOf_lt_of_mem f.2
    have h2 : sizeOf f.1.2 < sizeOf f.1 := by
      obtain ⟨⟨k, v⟩, hf⟩ := f
      simp only [Prod.mk.sizeOf_spec]
      omega
    simp only [JValue.jobj.sizeOf_spec]
    omega

/-- The program's mutable state: the global `summaries_history` list
(line 24) and the `summaries_history.json` file (`none` = absent). -/
structure StoreState where
  history : List SummaryRecord
  file : Option JValue

/-- The record `save_summary` builds (src/app.py lines 109–116): the
title comes from a fresh re-fetch of the URL (`Website(url).title if not
Website(url).error else "Unknown Title"`). -/
def mkRecord (env : Env) (url summary summary_type : String) : SummaryRecord :=
  { url := url, summary := summary, summary_type := summary_type,
    timestamp := env.now,
    title := if (Website.ofUrl env url).error.isNone
             then (Website.ofUrl env url).title else "Unknown Title" }

/-- `save_summary` (src/app.py lines 107–127): append to the in-memory
list, then try to overwrite the file with the full serialized list; a
write failure only prints a warning (line 125). -/
def save_summary (env : Env) (s : StoreState) (url summary summary_type : String) :
    StoreState × SummaryRecord :=
  let r := mkRecord env url summary summary_type
  let h := s.history ++ [r]
  let f := if env.writeOk then some (encodeHistory h) else s.file
  (⟨h, f⟩, r)

/-- `load_summaries` (src/app.py lines 129–139): if the file exists,
parse it and replace the in-memory list; on a parse failure fall back to
the empty list; if the file is absent the in-memory list is untouched. -/
def load_summaries (s : StoreState) : StoreState :=
  match s.file with
  | none => s
  | some v =>
    match decodeHistory v with
    | some recs => { s with history := recs }
    | none => { s with history := [] }

/-- `clear_history` (src/app.py lines 383–395): empty the in-memory
list; if the file exists try to remove it, swallowing any failure. -/
def clear_history (env : Env) (s : StoreState) : StoreState × String :=
  let s1 : StoreState := { s with history := [] }
  let s2 : StoreState :=
    if s1.file.isSome then
      if env.deleteOk then { s1 with file := none } else s1
    else s1
  (s2, "✅ History cleared successfully!")

/-- The URL list of `summarize_multiple` (src/app.py line 149):
`[url.strip() for url in urls_text.split('\n') if url.strip()]`. -/
def parseUrls (urls_text : String) : List String :=
  ((pysplitNl urls_text).map pystrip).filter (fun u => u ≠ "")

/-- One iteration of the batch loop (src/app.py lines 159–168): run
`summarize_website`; on a non-error result save it and emit a titled
section, otherwise emit an error section; either section re-fetches the
URL for its `## ...` heading.  The progress callbacks and the
1-second sleep have no effect on the embedded state. -/
def batch_step (env : Env) (s : StoreState) (url summary_type : String) :
    StoreState × String :=
  let summary := summarize_website env url summary_type
  if pystartswith summary "❌" = false then
    ((save_summary env s url summary summary_type).1,
     "## " ++ (Website.ofUrl env url).title ++ "\n**URL:** " ++ url ++ "\n\n" ++ summary ++ "\n")
  else
    (s, "## ❌ " ++ (Website.ofUrl env url).title ++ "\n**URL:** " ++ url ++ "\n\n" ++ summary ++ "\n")

/-- The `results` list the batch loop accumulates (src/app.py lines
153–173), with the store state threaded through. -/
def batchSections (env : Env) : StoreState → List String → String → List String
  | _, [], _ => []
  | s, u :: us, st =>
    (batch_step env s u st).2 :: batchSections env (batch_step env s u st).1 us st

/-- The store state after the batch loop. -/
def batchState (env : Env) : StoreState → List String → String → StoreState
  | s, [], _ => s
  | s, u :: us, st => batchState env (batch_step env s u st).1 us st

/-- `summarize_multiple` (src/app.py lines 141–175). -/
def summarize_multiple (env : Env) (s : StoreState) (urls_text summary_type : String) :
    StoreState × String :=
  if env.apiKey = false then
    (s, "❌ **Error**: No Gemini API key found. Please check your .env file.")
  else if pystrip urls_text = "" then
    (s, "❌ **Error**: Please enter at least one URL.")
  else
    let urls := parseUrls urls_text
    if urls = [] then (s, "❌ **Error**: No valid URLs found.")
    else
      (batchState env s urls summary_type,
       String.intercalate "\n---\n" (batchSections env s urls summary_type))

/-- `process_single_summary` (src/app.py lines 352–368): the single-URL
button handler; saves only non-error results. -/
def process_single_summary (env : Env) (s : StoreState) (url summary_type : String) :
    StoreState × String :=
  if pystrip url = "" then (s, "❌ Please enter a valid URL")
  else
    let result := summarize_website env url summary_type
    if pystartswith result "❌" = false then
      ((save_summary env s url result summary_type).1, result)
    else
      (s, result)

/-- The `'='*50` separator of the txt export (src/app.py line 201). -/
def eqRule : String := String.mk (List.replicate 50 '=')

/-- The markdown branch of `export_summaries` (src/app.py lines 182–189). -/
def exportMarkdown (h : List SummaryRecord) : String :=
  h.foldl
    (fun acc r =>
      acc ++ "## " ++ r.title ++ "\n" ++ "**URL:** " ++ r.url ++ "\n" ++
      "**Summary Type:** " ++ r.summary_type ++ "\n" ++ "**Date:** " ++ r.timestamp ++
      "\n\n" ++ r.summary ++ "\n\n---\n\n")
    "# Website Summaries Export\n\n"

/-- The txt branch of `export_summaries` (src/app.py lines 194–201). -/
def exportTxt (h : List SummaryRecord) : String :=
  h.foldl
    (fun acc r =>
      acc ++ "Title: " ++ r.title ++ "\n" ++ "URL: " ++ r.url ++ "\n" ++
      "Type: " ++ r.summary_type ++ "\n" ++ "Date: " ++ r.timestamp ++ "\n" ++
      "Summary:\n" ++ r.summary ++ "\n\n" ++ eqRule ++ "\n\n")
    "WEBSITE SUMMARIES EXPORT\n\n"

/-- `export_summaries` (src/app.py lines 177–203).  For a format outside
the three `if`/`elif` arms the local `output` is never assigned and the
`return output` at line 203 raises `UnboundLocalError`: modelled as
`none`. -/
def export_summaries (h : List SummaryRecord) (format_type : String) : Option String :=
  if h = [] then some "❌ **Error**: No summaries to export."
  else if format_type = "markdown" then some (exportMarkdown h)
  else if format_type = "json" then some (jsonRender (encodeHistory h))
  else if format_type = "txt" then some (exportTxt h)
  else none

/-! ## Concrete instances used by witnesses and counterexamples -/

/-- An empty store. -/
def s0 : StoreState := ⟨[], none⟩

/-- A fully working environment. -/
def envGood : Env :=
  ⟨true, fun _ => .success "T" "body", fun _ => .ok "nice summary", "t0", true, true⟩

/-- No API key configured. -/
def envNoKey : Env :=
  ⟨false, fun _ => .requestError "unreachable", fun _ => .error "down", "t0", true, true⟩

/-- Pages fetch fine, with a title but no body text. -/
def envBlankPage : Env :=
  ⟨true, fun _ => .success "Example" "", fun _ => .ok "sum", "t0", true, true⟩

/-- File deletion fails. -/
def envNoDelete : Env :=
  ⟨true, fun _ => .requestError "x", fun _ => .error "x", "t0", true, false⟩

/-- A sample stored record. -/
def rec1 : SummaryRecord :=
  ⟨"https://a.example", "saved summary", "short", "2024-01-01T00:00:00", "A Title"⟩

/-- A store holding `rec1` in memory and on file. -/
def sFull : StoreState := ⟨[rec1], some (encodeHistory [rec1])⟩

/-- A page text of 8001 characters. -/
def longText : String := String.mk (List.replicate 8001 'a')

/-! ## Helper lemmas -/

theorem isPrefixOf_append_self (p r : List Char) : p.isPrefixOf (p ++ r) = true := by
  induction p with
  | nil => simp
  | cons a as ih => simp [List.isPrefixOf, ih]

theorem pystartswith_append (p r : String) : pystartswith (p ++ r) p = true := by
  simp [pystartswith, isPrefixOf_append_self]

theorem errString_startswith (rest : String) :
    pystartswith ("❌ **Error**: " ++ rest) "❌" = true := by
  have h : "❌ **Error**: " ++ rest = "❌" ++ (" **Error**: " ++ rest) := by
    apply String.ext
    simp
  rw [h]
  exact pystartswith_append _ _

theorem summarize_cases (env : Env) (url st : String) :
    (∃ rest, summarize_website env url st = "❌ **Error**: " ++ rest) ∨
    env.llm (create_user_prompt (Website.ofUrl env url).title (Website.ofUrl env url).text) =
      Except.ok (summarize_website env url st) := by
  unfold summarize_website
  cases hk : env.apiKey with
  | false =>
    left
    exact ⟨"No Gemini API key found. Please check your .env file.", by simp⟩
  | true =>
    simp only [Bool.true_eq_false, if_false]
    cases herr : (Website.ofUrl env url).error with
    | some e => left; exact ⟨e, by simp [herr]⟩
    | none =>
      simp only [herr]
      by_cases hb : pystrip (Website.ofUrl env url).text = ""
      · left
        exact ⟨"No content could be extracted from the website.", by simp [hb]⟩
      · simp only [hb, if_false]
        cases hl : env.llm (create_user_prompt (Website.ofUrl env url).title (Website.ofUrl env url).text) with
        | ok t => right; simp [hl]
        | error e =>
          left
          refine ⟨"Failed to generate summary: " ++ e, ?_⟩
          simp only [hl]
          apply String.ext
          simp

theorem summarize_requestError (env : Env) (url st m : String)
    (hf : env.fetch url = .requestError m) :
    ∃ rest, summarize_website env url st = "❌ **Error**: " ++ rest := by
  unfold summarize_website
  cases hk : env.apiKey with
  | false => exact ⟨"No Gemini API key found. Please check your .env file.", by simp⟩
  | true =>
    refine ⟨"Failed to fetch website: " ++ m, ?_⟩
    simp [Website.ofUrl, hf]

theorem stripChars_eq_nil_iff (l : List Char) :
    ((l.dropWhile Char.isWhitespace).reverse.dropWhile Char.isWhitespace).reverse = [] ↔
      ∀ c ∈ l, c.isWhitespace := by
  constructor
  · intro h c hc
    rw [List.reverse_eq_nil_iff, List.dropWhile_eq_nil_iff] at h
    have h2 : ∀ x ∈ l.dropWhile Char.isWhitespace, x.isWhitespace :=
      fun x hx => h x (List.mem_reverse.mpr hx)
    have hsplit : c ∈ l.takeWhile Char.isWhitespace ++ l.dropWhile Char.isWhitespace := by
      rw [List.takeWhile_append_dropWhile]
      exact hc
    rcases List.mem_append.mp hsplit with h3 | h3
    · exact List.mem_takeWhile_imp h3
    · exact h2 c h3
  · intro h
    have hd : l.dropWhile Char.isWhitespace = [] :=
      List.dropWhile_eq_nil_iff.mpr (fun x hx => h x hx)
    simp [hd]

theorem pystrip_eq_empty_iff (s : String) :
    pystrip s = "" ↔ ∀ c ∈ s.data, c.isWhitespace := by
  rw [← stripChars_eq_nil_iff]
  unfold pystrip
  constructor
  · intro h
    have := congrArg String.data h
    simpa using this
  · intro h
    rw [h]

theorem mem_splitNlChars (l : List Char) :
    ∀ x ∈ splitNlChars l, ∀ c ∈ x, c ∈ l := by
  induction l with
  | nil =>
    intro x hx c hc
    simp [splitNlChars] at hx
    subst hx
    exact absurd hc (List.not_mem_nil c)
  | cons a rest ih =>
    intro x hx c hc
    by_cases ha : a = '\n'
    · rw [show splitNlChars (a :: rest) = [] :: splitNlChars rest from by
        simp [splitNlChars, ha]] at hx
      rcases List.mem_cons.mp hx with h | h
      · subst h; exact absurd hc (List.not_mem_nil c)
      · exact List.mem_cons_of_mem a (ih x h c hc)
    · cases hsp : splitNlChars rest with
      | nil =>
        rw [show splitNlChars (a :: rest) = [[a]] from by
          simp [splitNlChars, ha, hsp]] at hx
        rw [List.mem_singleton] at hx
        subst hx
        rw [List.mem_singleton] at hc
        subst hc
        exact List.mem_cons_self c rest
      | cons y ys =>
        rw [show splitNlChars (a :: rest) = (a :: y) :: ys from by
          simp [splitNlChars, ha, hsp]] at hx
        rcases List.mem_cons.mp hx with h | h
        · subst h
          rcases List.mem_cons.mp hc with h2 | h2
          · subst h2; exact List.mem_cons_self c rest
          · exact List.mem_cons_of_mem a
              (ih y (by rw [hsp]; exact List.mem_cons_self y ys) c h2)
        · exact List.mem_cons_of_mem a
            (ih x (by rw [hsp]; exact List.mem_cons_of_mem y h) c hc)

theorem parseUrls_eq_nil_of_blank (s : String) (h : pystrip s = "") :
    parseUrls s = [] := by
  have hws : ∀ c ∈ s.data, c.isWhitespace := (pystrip_eq_empty_iff s).mp h
  unfold parseUrls pysplitNl
  rw [List.filter_eq_nil_iff]
  intro u hu
  simp only [List.map_map, List.mem_map] at hu
  obtain ⟨x, hx, rfl⟩ := hu
  have hall : ∀ c ∈ x, c.isWhitespace :=
    fun c hc => hws c (mem_splitNlChars s.data x hx c hc)
  have : pystrip (String.mk x) = "" := by
    rw [pystrip_eq_empty_iff]
    simpa using hall
  simp [Function.comp, this]

theorem batchSections_length (env : Env) (st : String) :
    ∀ (urls : List String) (s : StoreState),
      (batchSections env s urls st).length = urls.length := by
  intro urls
  induction urls with
  | nil => intro s; rfl
  | cons u us ih => intro s; simp [batchSections, ih]

theorem batchSections_getElem (env : Env) (st : String) :
    ∀ (urls : List String) (s : StoreState) (i : Nat) (h : i < urls.length),
      (batchSections env s urls st)[i]? =
        some (batch_step env (batchState env s (urls.take i) st) (urls.get ⟨i, h⟩) st).2 := by
  intro urls
  induction urls with
  | nil => intro s i h; exact absurd h (Nat.not_lt_zero i)
  | cons u us ih =>
    intro s i h
    cases i with
    | zero => simp [batchSections, batchState, List.take]
    | succ j =>
      have hj : j < us.length := Nat.lt_of_succ_lt_succ h
      simp only [batchSections, List.getElem?_cons_succ, List.take_succ_cons, List.get_cons_succ]
      rw [ih (batch_step env s u st).1 j hj]
      simp [batchState]

theorem mem_batch_step_history (env : Env) (s : StoreState) (url st : String)
    (r : SummaryRecord) (hr : r ∈ (batch_step env s url st).1.history) :
    r ∈ s.history ∨ pystartswith r.summary "❌" = false := by
  unfold batch_step at hr
  by_cases hg : pystartswith (summarize_website env url st) "❌" = false
  · simp only [hg, if_true] at hr
    unfold save_summary at hr
    simp only at hr
    rcases List.mem_append.mp hr with h | h
    · exact Or.inl h
    · right
      rw [List.mem_singleton] at h
      subst h
      exact hg
  · simp only [hg, if_false] at hr
    exact Or.inl hr

theorem mem_batchState_history (env : Env) (st : String) :
    ∀ (urls : List String) (s : StoreState) (r : SummaryRecord),
      r ∈ (batchState env s urls st).history →
      r ∈ s.history ∨ pystartswith r.summary "❌" = false := by
  intro urls
  induction urls with
  | nil => intro s r hr; exact Or.inl hr
  | cons u us ih =>
    intro s r hr
    rcases ih (batch_step env s u st).1 r hr with h | h
    · exact mem_batch_step_history env s u st r h
    · exact Or.inr h

theorem decode_encode_record (r : SummaryRecord) :
    decodeRecord (encodeRecord r) = some r := by
  simp [decodeRecord, encodeRecord, jstrField, jlookup]

theorem decode_encode_history (h : List SummaryRecord) :
    decodeHistory (encodeHistory h) = some h := by
  have key : ∀ (hs : List SummaryRecord),
      List.mapM decodeRecord (hs.map encodeRecord) = some hs := by
    intro hs
    induction hs with
    | nil => rfl
    | cons r rs ih =>
      rw [List.map_cons, List.mapM_cons, decode_encode_record, ih]
      rfl
  simpa [decodeHistory, encodeHistory] using key h

/-! ## Claims -/

/-- C1: `summarize_website(url, style)` never raises: it is a total
function whose result is either an error string carrying the uniform
prefix `"❌ **Error**: "` (missing API key, fetch error, extraction
error or blank text, LLM failure) or, on success, exactly the model's
response text. -/
theorem summarize_website_total_or_prefixed (env : Env) (url st : String) :
    (∃ rest, summarize_website env url st = "❌ **Error**: " ++ rest) ∨
    env.llm (create_user_prompt (Website.ofUrl env url).title (Website.ofUrl env url).text) =
      Except.ok (summarize_website env url st) :=
  summarize_cases env url st

/-- C2: for extracted text longer than 8000 characters the user prompt
is the fixed header followed by exactly the first 8000 characters of
the text and nothing beyond them. -/
theorem user_prompt_truncation (title text : String) (h : 8000 < text.length) :
    create_user_prompt title text = user_prompt_header title ++ text.take 8000 ∧
    (text.take 8000).length = 8000 ∧
    text.take 8000 ++ text.drop 8000 = text := by
  refine ⟨rfl, ?_, ?_⟩
  · rw [String.take_eq, String.mk_length, List.length_take, String.length_data]
    omega
  · apply String.ext
    rw [String.data_append, String.data_take, String.data_drop]
    exact List.take_append_drop 8000 text.data

/-- C2 witness: a concrete 8001-character text. -/
theorem user_prompt_truncation_witness :
    8000 < longText.length ∧
    (create_user_prompt "Example" longText = user_prompt_header "Example" ++ longText.take 8000 ∧
     (longText.take 8000).length = 8000 ∧
     longText.take 8000 ++ longText.drop 8000 = longText) := by
  have h : 8000 < longText.length := by
    rw [show longText.length = (List.replicate 8001 'a').length from rfl, List.length_replicate]
    omega
  exact ⟨h, user_prompt_truncation "Example" longText h⟩

/-- C3 counterexample: with two URLs but no API key configured,
`summarize_multiple` returns the single configuration-error string, not
two per-URL sections joined by the separator. -/
theorem summarize_multiple_needs_key :
    (parseUrls "https://a.example\nhttps://b.example").length = 2 ∧
    (summarize_multiple envNoKey s0 "https://a.example\nhttps://b.example" "short").2 =
      "❌ **Error**: No Gemini API key found. Please check your .env file." ∧
    (summarize_multiple envNoKey s0 "https://a.example\nhttps://b.example" "short").2 ≠
      String.intercalate "\n---\n"
        (batchSections envNoKey s0 (parseUrls "https://a.example\nhttps://b.example") "short") := by
  refine ⟨by decide, rfl, by decide⟩

/-- C3 (amended): provided the API credential is configured, for every
batch input whose URL list is non-empty the output is exactly the
per-URL sections joined by the separator, one section per URL in input
order, regardless of which URLs fail. -/
theorem summarize_multiple_batch_sections (env : Env) (s : StoreState)
    (urls_text st : String) (hkey : env.apiKey = true)
    (hne : parseUrls urls_text ≠ []) :
    (summarize_multiple env s urls_text st).2 =
      String.intercalate "\n---\n" (batchSections env s (parseUrls urls_text) st) ∧
    (batchSections env s (parseUrls urls_text) st).length = (parseUrls urls_text).length ∧
    ∀ i (h : i < (parseUrls urls_text).length),
      (batchSections env s (parseUrls urls_text) st)[i]? =
        some (batch_step env (batchState env s ((parseUrls urls_text).take i) st)
          ((parseUrls urls_text).get ⟨i, h⟩) st).2 := by
  have hblank : ¬ pystrip urls_text = "" :=
    fun hb => hne (parseUrls_eq_nil_of_blank urls_text hb)
  refine ⟨?_, batchSections_length env st (parseUrls urls_text) s, ?_⟩
  · unfold summarize_multiple
    simp [hkey, hblank, hne]
  · intro i h
    exact batchSections_getElem env st (parseUrls urls_text) s i h

/-- C3 witness: a two-URL batch in a working environment. -/
theorem summarize_multiple_batch_sections_witness :
    envGood.apiKey = true ∧ parseUrls "https://a.example\nhttps://b.example" ≠ [] ∧
    ((summarize_multiple envGood s0 "https://a.example\nhttps://b.example" "short").2 =
      String.intercalate "\n---\n"
        (batchSections envGood s0 (parseUrls "https://a.example\nhttps://b.example") "short") ∧
     (batchSections envGood s0 (parseUrls "https://a.example\nhttps://b.example") "short").length =
       (parseUrls "https://a.example\nhttps://b.example").length ∧
    ∀ i (h : i < (parseUrls "https://a.example\nhttps://b.example").length),
      (batchSections envGood s0 (parseUrls "https://a.example\nhttps://b.example") "short")[i]? =
        some (batch_step envGood
          (batchState envGood s0 ((parseUrls "https://a.example\nhttps://b.example").take i) "short")
          ((parseUrls "https://a.example\nhttps://b.example").get ⟨i, h⟩) "short").2) :=
  ⟨rfl, by decide,
   summarize_multiple_batch_sections envGood s0 "https://a.example\nhttps://b.example" "short"
     rfl (by decide)⟩

/-- C4 counterexample: "bullet points" is not a recognized style, and
the system instruction built for it is not the "short" one. -/
theorem create_system_prompt_unrecognized_not_short :
    ("bullet points" ≠ "short" ∧ "bullet points" ≠ "detailed" ∧
     "bullet points" ≠ "bullet_points") ∧
    create_system_prompt "bullet points" ≠ create_system_prompt "short" := by
  decide

/-- C4 (amended): an unspecified `summary_type` defaults to "short" and
yields the short instruction; an unrecognized value yields the generic
"Respond in markdown." instruction, which differs from the short one. -/
theorem create_system_prompt_default_generic :
    create_system_prompt default_summary_type =
      base_prompt ++ " Respond with a short summary in markdown." ∧
    ∀ st, st ≠ "short" → st ≠ "detailed" → st ≠ "bullet_points" →
      create_system_prompt st = base_prompt ++ " Respond in markdown." := by
  refine ⟨rfl, ?_⟩
  intro st h1 h2 h3
  simp [create_system_prompt, h1, h2, h3]

/-- C4 witness: the unrecognized style "medium". -/
theorem create_system_prompt_default_generic_witness :
    create_system_prompt "medium" = base_prompt ++ " Respond in markdown." :=
  create_system_prompt_default_generic.2 "medium" (by decide) (by decide) (by decide)

/-- C5: every record present in the store after the batch flow or the
single-URL flow either was already there or has a summary that does not
carry the error prefix: error outcomes are never persisted. -/
theorem history_never_stores_errors (env : Env) (s : StoreState)
    (urls : List String) (url st : String) :
    (∀ r ∈ (batchState env s urls st).history,
        r ∈ s.history ∨ pystartswith r.summary "❌" = false) ∧
    (∀ r ∈ (process_single_summary env s url st).1.history,
        r ∈ s.history ∨ pystartswith r.summary "❌" = false) := by
  constructor
  · intro r hr
    exact mem_batchState_history env st urls s r hr
  · intro r hr
    unfold process_single_summary at hr
    by_cases hu : pystrip url = ""
    · simp only [hu, if_true] at hr
      exact Or.inl hr
    · simp only [hu, if_false] at hr
      by_cases hg : pystartswith (summarize_website env url st) "❌" = false
      · simp only [hg, if_true] at hr
        unfold save_summary at hr
        simp only at hr
        rcases List.mem_append.mp hr with h | h
        · exact Or.inl h
        · right
          rw [List.mem_singleton] at h
          subst h
          exact hg
      · simp only [hg, if_false] at hr
        exact Or.inl hr

/-- C5 witness: the record the batch flow saves for a successful URL. -/
theorem history_never_stores_errors_witness :
    (⟨"https://a.example", "nice summary", "short", "t0", "T"⟩ : SummaryRecord) ∈ s0.history ∨
    pystartswith (⟨"https://a.example", "nice summary", "short", "t0", "T"⟩ : SummaryRecord).summary
      "❌" = false :=
  (history_never_stores_errors envGood s0 ["https://a.example"] "https://a.example" "short").1
    ⟨"https://a.example", "nice summary", "short", "t0", "T"⟩ (by decide)

/-- C6: for a non-empty history, the JSON export is the serialization of
the in-memory sequence, and parsing that serialization back yields the
sequence unchanged, field for field. -/
theorem export_json_roundtrip (h : List SummaryRecord) (hne : h ≠ []) :
    export_summaries h "json" = some (jsonRender (encodeHistory h)) ∧
    decodeHistory (encodeHistory h) = some h := by
  refine ⟨?_, decode_encode_history h⟩
  simp [export_summaries, hne]

/-- C6 witness: a one-record history. -/
theorem export_json_roundtrip_witness :
    ([rec1] : List SummaryRecord) ≠ [] ∧
    (export_summaries [rec1] "json" = some (jsonRender (encodeHistory [rec1])) ∧
     decodeHistory (encodeHistory [rec1]) = some [rec1]) :=
  ⟨by decide, export_json_roundtrip [rec1] (by decide)⟩

/-- C7: `save_summary` always appends the new record to the in-memory
sequence and completes; the in-memory result is identical whether or not
the file write succeeds. -/
theorem save_summary_append_survives_write_failure (env : Env) (s : StoreState)
    (url summary st : String) :
    (save_summary env s url summary st).1.history =
      s.history ++ [mkRecord env url summary st] ∧
    (save_summary env s url summary st).1.history =
      (save_summary { env with writeOk := true } s url summary st).1.history :=
  ⟨rfl, rfl⟩

/-- C8 counterexample: when the file deletion fails, `clear_history`
still empties memory, but a subsequent `load_summaries` reloads the old
records, so load-after-clear is not empty. -/
theorem clear_history_failed_delete_reloads :
    (clear_history envNoDelete sFull).1.history = [] ∧
    (load_summaries (clear_history envNoDelete sFull).1).history = [rec1] ∧
    [rec1] ≠ ([] : List SummaryRecord) := by
  refine ⟨rfl, ?_, by decide⟩
  show (load_summaries ⟨[], some (encodeHistory [rec1])⟩).history = [rec1]
  simp [load_summaries, decode_encode_history]

/-- C8 (amended): `clear_history` always empties the in-memory sequence
and completes even when the file is absent or its deletion fails; a
`load_summaries` performed after it yields the empty sequence provided
the file was absent or the deletion succeeded. -/
theorem clear_history_clears (env : Env) (s : StoreState) :
    (clear_history env s).1.history = [] ∧
    ((env.deleteOk = true ∨ s.file = none) →
      (load_summaries (clear_history env s).1).history = []) := by
  constructor
  · unfold clear_history
    by_cases hf : s.file.isSome <;> by_cases hd : env.deleteOk <;> simp [hf, hd]
  · intro hdel
    unfold clear_history load_summaries
    cases hf : s.file with
    | none => simp [hf]
    | some v =>
      rcases hdel with hd | hd
      · simp [hf, hd]
      · rw [hf] at hd
        cases hd

/-- C8 witness: clearing a populated store whose deletion succeeds. -/
theorem clear_history_clears_witness :
    (clear_history envGood sFull).1.history = [] ∧
    (envGood.deleteOk = true ∨ sFull.file = none) ∧
    (load_summaries (clear_history envGood sFull).1).history = [] := by
  obtain ⟨h1, h2⟩ := clear_history_clears envGood sFull
  exact ⟨h1, Or.inl rfl, h2 (Or.inl rfl)⟩

/-- C9 counterexample: a URL that fetches fine but has no body text
fails summarization, yet its batch error section shows the real page
title "Example" obtained by re-fetching, not a placeholder. -/
theorem batch_error_section_real_title :
    envBlankPage.fetch "https://a.example" = .success "Example" "" ∧
    (batch_step envBlankPage s0 "https://a.example" "short").2 =
      "## ❌ Example\n**URL:** https://a.example\n\n❌ **Error**: No content could be extracted from the website.\n" := by
  exact ⟨rfl, by decide⟩

/-- C9 (amended): the heading of a failed URL's batch section uses the
title of a fresh re-fetch of the URL: the placeholder "Unknown Title"
when that re-fetch fails with a request error, and the re-fetched real
page title when the page is fetchable. -/
theorem batch_error_section_title (env : Env) (s : StoreState) (url st : String) :
    (∀ m, env.fetch url = .requestError m →
      (batch_step env s url st).2 =
        "## ❌ " ++ "Unknown Title" ++ "\n**URL:** " ++ url ++ "\n\n" ++
          summarize_website env url st ++ "\n") ∧
    (∀ t x, env.fetch url = .success t x →
      pystartswith (summarize_website env url st) "❌" = true →
      (batch_step env s url st).2 =
        "## ❌ " ++ t ++ "\n**URL:** " ++ url ++ "\n\n" ++
          summarize_website env url st ++ "\n") := by
  constructor
  · intro m hf
    obtain ⟨rest, hrest⟩ := summarize_requestError env url st m hf
    have hg : pystartswith (summarize_website env url st) "❌" = true := by
      rw [hrest]
      exact errString_startswith rest
    simp only [batch_step, hg]
    simp [Website.ofUrl, hf]
  · intro t x hf hg
    simp only [batch_step, hg]
    simp [Website.ofUrl, hf]

/-- C9 witness: a request-error URL yields the placeholder heading. -/
theorem batch_error_section_title_witness :
    envNoKey.fetch "https://a.example" = .requestError "unreachable" ∧
    (batch_step envNoKey s0 "https://a.example" "short").2 =
      "## ❌ " ++ "Unknown Title" ++ "\n**URL:** " ++ "https://a.example" ++ "\n\n" ++
        summarize_website envNoKey "https://a.example" "short" ++ "\n" :=
  ⟨rfl,
   (batch_error_section_title envNoKey s0 "https://a.example" "short").1 "unreachable" rfl⟩

/-- C10: for a non-empty history and a format outside the three
enumerated ones, `export_summaries` raises (`output` is never assigned)
instead of returning a string. -/
theorem export_summaries_unknown_format (h : List SummaryRecord) (fmt : String)
    (hne : h ≠ []) (h1 : fmt ≠ "markdown") (h2 : fmt ≠ "json") (h3 : fmt ≠ "txt") :
    export_summaries h fmt = none := by
  simp [export_summaries, hne, h1, h2, h3]

/-- C10 witness: exporting one record as "xml". -/
theorem export_summaries_unknown_format_witness :
    (([rec1] : List SummaryRecord) ≠ [] ∧ "xml" ≠ "markdown" ∧ "xml" ≠ "json" ∧
      "xml" ≠ "txt") ∧
    export_summaries [rec1] "xml" = none :=
  ⟨⟨by decide, by decide, by decide, by decide⟩,
   export_summaries_unknown_format [rec1] "xml" (by decide) (by decide) (by decide) (by decide)⟩
